import Mathlib

/-!
Shallow embedding of `src/c64_basic.py` (class `C64Basic`), the execution
engine of a C64-style BASIC interpreter, together with theorems that check
the natural-language specification's claims against the embedded code.

Modelling conventions:
* Python strings are lists of characters (`Chars`); all repository inputs
  are ASCII, so the ASCII fragments of `str.isalpha`, `str.upper`, ... are
  modelled.
* Python numbers: `int` is `Int`; `float` values are modelled as exact
  rationals (`Rat`).  No claim below depends on IEEE-754 rounding.
* Host-library behaviour that the Python code delegates to (transcendental
  `math.*` functions, `random.random()`, the textual repr of a `float`,
  `float(...)` parsing of arbitrary strings, the module-global namespace
  visible to `eval`, and the file system read by LOAD) is a parameter: the
  structure `Host`.  Every theorem holds for every `Host`.
* Fallible Python code returns `Except`: a raised exception is `.error e`.
  Recursion is fuel-based; exhausting fuel inside `evaluate_expression` or
  `execute_command` models Python's catchable `RecursionError`, while
  exhausting the `run_program` while-loop's fuel models divergence and is
  never caught.
* State-mutating exceptions carry the state at raise time (`RunErr`),
  because Python does not roll back mutations made before a raise.
-/

namespace C64

/-- Python strings, modelled as explicit character lists (ASCII inputs). -/
abbrev Chars := List Char

/-- The whitespace characters stripped by Python `str.strip()` (ASCII). -/
def isSpaceCh (c : Char) : Bool :=
  c = ' ' || c = '\t' || c = '\n' || c = '\r' || c = '\x0b' || c = '\x0c'

/-- ASCII fragment of Python `str.isalpha` on one character. -/
def isAlphaCh (c : Char) : Bool :=
  ('A' ≤ c && c ≤ 'Z') || ('a' ≤ c && c ≤ 'z')

/-- ASCII decimal digit test (Python `str.isdigit` fragment). -/
def isDigitCh (c : Char) : Bool := '0' ≤ c && c ≤ '9'

/-- ASCII fragment of Python `str.isalnum` on one character. -/
def isAlnumCh (c : Char) : Bool := isAlphaCh c || isDigitCh c

/-- The regex class `\w` of Python `re`: letters, digits, underscore. -/
def isWordCh (c : Char) : Bool := isAlnumCh c || c = '_'

/-- Uppercase one ASCII character (Python `str.upper` fragment). -/
def asciiUpper (c : Char) : Char :=
  if 'a' ≤ c && c ≤ 'z' then Char.ofNat (c.toNat - 32) else c

/-- Lowercase one ASCII character (Python `str.lower` fragment). -/
def asciiLower (c : Char) : Char :=
  if 'A' ≤ c && c ≤ 'Z' then Char.ofNat (c.toNat + 32) else c

/-- Python `str.upper()` (ASCII). -/
def chUpper (l : Chars) : Chars := l.map asciiUpper

/-- Python `str.lower()` (ASCII). -/
def chLower (l : Chars) : Chars := l.map asciiLower

/-- Python `str.strip()` with no argument. -/
def chStrip (l : Chars) : Chars :=
  ((l.dropWhile isSpaceCh).reverse.dropWhile isSpaceCh).reverse

/-- Python `str.strip(q)` for a single strip character `q`. -/
def chStripChar (q : Char) (l : Chars) : Chars :=
  ((l.dropWhile (· = q)).reverse.dropWhile (· = q)).reverse

/-- Python substring test `sub in s`. -/
def chContains (sub : Chars) : Chars → Bool
  | [] => sub.isPrefixOf ([] : Chars)
  | c :: t => sub.isPrefixOf (c :: t) || chContains sub t

/-- Replacement scanner, fuelled: each step consumes at least one
character, so fuel `l.length + 1` always suffices. -/
def chReplaceAux (pat rep : Chars) : Nat → Chars → Chars
  | 0, l => l
  | _ + 1, [] => []
  | f + 1, c :: t =>
    if pat ≠ [] ∧ pat.isPrefixOf (c :: t) then
      rep ++ chReplaceAux pat rep f ((c :: t).drop pat.length)
    else
      c :: chReplaceAux pat rep f t

/-- Python `s.replace(pat, rep)` for a nonempty pattern: replace every
occurrence left to right, non-overlapping.  (The code never calls `replace`
with an empty pattern along the executions studied here; for `pat = []`
this returns `l`.) -/
def chReplace (pat rep l : Chars) : Chars := chReplaceAux pat rep (l.length + 1) l

/-- Split scanner with a reversed-segment accumulator, fuelled as above. -/
def chSplitOnAux (sep : Chars) : Nat → Chars → Chars → List Chars
  | 0, acc, l => [acc.reverse ++ l]
  | _ + 1, acc, [] => [acc.reverse]
  | f + 1, acc, c :: t =>
    if sep ≠ [] ∧ sep.isPrefixOf (c :: t) then
      acc.reverse :: chSplitOnAux sep f [] ((c :: t).drop sep.length)
    else
      chSplitOnAux sep f (c :: acc) t

/-- Python `s.split(sep)` for a nonempty separator. -/
def chSplitOn (sep l : Chars) : List Chars := chSplitOnAux sep (l.length + 1) [] l

/-- Python `s.split(sep, 1)`: split at the first occurrence only; `none`
when the separator does not occur. -/
def chSplitFirst (sep : Chars) : Chars → Option (Chars × Chars)
  | [] => none
  | c :: t =>
    if sep ≠ [] ∧ sep.isPrefixOf (c :: t) then
      some ([], (c :: t).drop sep.length)
    else
      match chSplitFirst sep t with
      | some (pre, post) => some (c :: pre, post)
      | none => none

/-- Python `s.find(sub)`: index of the first occurrence (`none` for -1). -/
def chFindSub (sub : Chars) : Chars → Option Nat
  | [] => if sub.isPrefixOf ([] : Chars) then some 0 else none
  | c :: t =>
    if sub.isPrefixOf (c :: t) then some 0
    else (chFindSub sub t).map (· + 1)

/-- The character of one decimal digit. -/
def digitCh (d : Nat) : Char := Char.ofNat (48 + d)

/-- Decimal digits of a natural number (auxiliary, fuelled by the number). -/
def natReprAux : Nat → Nat → Chars
  | 0, _ => []
  | f + 1, n => if n < 10 then [digitCh n] else natReprAux f (n / 10) ++ [digitCh (n % 10)]

/-- Decimal representation of a natural number, as Python `str` renders it. -/
def natRepr (n : Nat) : Chars := natReprAux (n + 1) n

/-- Decimal representation of an integer, as Python `str` renders it. -/
def intRepr (i : Int) : Chars := if i < 0 then '-' :: natRepr (-i).toNat else natRepr i.toNat

/-- Value of a list of decimal digit characters. -/
def digitsToNat (l : Chars) : Nat := l.foldl (fun a c => a * 10 + (c.toNat - 48)) 0

/-- Python numbers stored by the interpreter: `int`, or `float` modelled as
an exact rational. -/
inductive PyNum where
  | int (i : Int)
  | float (q : Rat)
deriving DecidableEq

/-- A BASIC value as the Python code stores it: a number or a string
(`Union[int, float, str]`). -/
inductive Value where
  | num (n : PyNum)
  | str (s : Chars)
deriving DecidableEq

/-- The Python exceptions that the embedded code can raise or catch. -/
inductive PyErr where
  | synErr | nameErr | typeErr | zeroDiv | valueErr | indexErr | recursionErr | eofErr
deriving DecidableEq

/-- Values occurring inside the host `eval` model: Python `int`, `bool`,
`float`, `str` and `None`. -/
inductive PyVal where
  | vint (i : Int)
  | vbool (b : Bool)
  | vfloat (q : Rat)
  | vstr (s : Chars)
  | vnone
deriving DecidableEq

/-- The host-library behaviour the Python code delegates to.  The
transcendental `math.*` functions return `none` on a domain error
(`ValueError`); `parseFloat` is Python `float(str)` (`none` = `ValueError`);
`floatRepr` is Python `str` of a `float`; `globalsLookup` is the module
namespace that a bare name inside `eval` resolves against; `readFile` is the
file system seen by LOAD (`none` = `FileNotFoundError`), returning the raw
text lines of the file. -/
structure Host where
  sqr : Rat → Option Rat
  sin : Rat → Option Rat
  cos : Rat → Option Rat
  tan : Rat → Option Rat
  log : Rat → Option Rat
  exp : Rat → Option Rat
  rnd : Rat
  floatRepr : Rat → Chars
  parseFloat : Chars → Option Rat
  globalsLookup : Chars → Option PyVal
  readFile : Chars → Option (List Chars)

/-- A concrete host used to instantiate closed statements; every theorem
below that quantifies over the host holds for any instance. -/
def host0 : Host where
  sqr := fun _ => none
  sin := fun _ => none
  cos := fun _ => none
  tan := fun _ => none
  log := fun _ => none
  exp := fun _ => none
  rnd := 0
  floatRepr := fun _ => []
  parseFloat := fun _ => none
  globalsLookup := fun _ => none
  readFile := fun _ => none

/-- Python `str` of an interpreter number. -/
def pyNumStr (H : Host) : PyNum → Chars
  | .int i => intRepr i
  | .float q => H.floatRepr q

/-- Python `str` of an interpreter value. -/
def pyValueStr (H : Host) : Value → Chars
  | .num n => pyNumStr H n
  | .str s => s

/-- Python `int(s)` on a string: optional sign and decimal digits after
stripping surrounding whitespace (`none` = `ValueError`). -/
def pyIntParse (s : Chars) : Option Int :=
  match chStrip s with
  | '-' :: ds => if ds ≠ [] ∧ ds.all isDigitCh then some (-(digitsToNat ds : Int)) else none
  | '+' :: ds => if ds ≠ [] ∧ ds.all isDigitCh then some (digitsToNat ds) else none
  | ds => if ds ≠ [] ∧ ds.all isDigitCh then some (digitsToNat ds) else none

/-- Truncation toward zero, as Python `int(float)` behaves. -/
def ratTrunc (q : Rat) : Int := if 0 ≤ q then q.floor else q.ceil

/-- Python `int(...)` applied to an interpreter value. -/
def pyIntOfValue : Value → Except PyErr Int
  | .num (.int i) => .ok i
  | .num (.float q) => .ok (ratTrunc q)
  | .str s =>
    match pyIntParse s with
    | some i => .ok i
    | none => .error .valueErr

/-- Python `float(...)` applied to an interpreter value. -/
def pyFloatOfValue (H : Host) : Value → Except PyErr Rat
  | .num (.int i) => .ok (i : Rat)
  | .num (.float q) => .ok q
  | .str s =>
    match H.parseFloat s with
    | some q => .ok q
    | none => .error .valueErr

/-! ### Model of the host `eval` used at `c64_basic.py:367` and `:649`

The legacy code hands the substituted expression text to Python's `eval`.
That behaviour is modelled by a tokenizer, parser and evaluator for the
fragment of Python expression syntax reachable from BASIC statements:
int/float/string literals, names, `+ - * /`, parentheses, comparisons,
calls and the keyword constants; any other token is a `SyntaxError`, as in
Python.  Compilation errors (tokenize/parse) take precedence over runtime
errors, as `eval` compiles the whole string before running it. -/

/-- Comparison operators of the `eval` model. -/
inductive PCmpOp where
  | ceq | cne | clt | cgt | cle | cge
deriving DecidableEq

/-- Arithmetic operators of the `eval` model. -/
inductive PBinOp where
  | badd | bsub | bmul | bdiv
deriving DecidableEq

/-- Tokens of the `eval` model. -/
inductive PTok where
  | tint (n : Int)
  | tfloat (q : Rat)
  | tstr (s : Chars)
  | tname (x : Chars)
  | bop (o : PBinOp)
  | cop (o : PCmpOp)
  | lpar | rpar | comma
deriving DecidableEq

/-- Rational value of an integer part and a fractional digit string. -/
def mkFloatLit (ip fp : Chars) : Rat :=
  (digitsToNat ip : Rat) + (digitsToNat fp : Rat) / ((10 : Rat) ^ fp.length)

/-- True when a number literal is immediately followed by a character that
makes it an invalid Python literal (e.g. `5B`, `1.2.3`). -/
def numLitBad : Chars → Bool
  | [] => false
  | c :: _ => isAlnumCh c || c = '_' || c = '.'

/-- Tokenizer of the `eval` model.  The fuel argument is at least the text
length at every call; each step consumes at least one character. -/
def pyTokenizeAux : Nat → Chars → Except PyErr (List PTok)
  | 0, _ => .error .recursionErr
  | _ + 1, [] => .ok []
  | f + 1, c :: t =>
    if isSpaceCh c then pyTokenizeAux f t
    else if isDigitCh c then
      let ip := (c :: t).takeWhile isDigitCh
      let r1 := (c :: t).dropWhile isDigitCh
      match r1 with
      | '.' :: r2 =>
        let fp := r2.takeWhile isDigitCh
        let r3 := r2.dropWhile isDigitCh
        if numLitBad r3 then .error .synErr
        else do
          let ts ← pyTokenizeAux f r3
          .ok (.tfloat (mkFloatLit ip fp) :: ts)
      | _ =>
        if numLitBad r1 then .error .synErr
        else do
          let ts ← pyTokenizeAux f r1
          .ok (.tint (digitsToNat ip) :: ts)
    else if c = '.' then
      match t with
      | d :: _ =>
        if isDigitCh d then
          let fp := t.takeWhile isDigitCh
          let r2 := t.dropWhile isDigitCh
          if numLitBad r2 then .error .synErr
          else do
            let ts ← pyTokenizeAux f r2
            .ok (.tfloat (mkFloatLit [] fp) :: ts)
        else .error .synErr
      | [] => .error .synErr
    else if c = '"' || c = '\'' then
      match chSplitFirst [c] t with
      | some (lit, rest) => do
        let ts ← pyTokenizeAux f rest
        .ok (.tstr lit :: ts)
      | none => .error .synErr
    else if isAlphaCh c || c = '_' then
      let x := (c :: t).takeWhile isWordCh
      let r := (c :: t).dropWhile isWordCh
      do
        let ts ← pyTokenizeAux f r
        .ok (.tname x :: ts)
    else
      match c, t with
      | '=', '=' :: r => do let ts ← pyTokenizeAux f r; .ok (.cop .ceq :: ts)
      | '!', '=' :: r => do let ts ← pyTokenizeAux f r; .ok (.cop .cne :: ts)
      | '<', '=' :: r => do let ts ← pyTokenizeAux f r; .ok (.cop .cle :: ts)
      | '>', '=' :: r => do let ts ← pyTokenizeAux f r; .ok (.cop .cge :: ts)
      | '<', r => do let ts ← pyTokenizeAux f r; .ok (.cop .clt :: ts)
      | '>', r => do let ts ← pyTokenizeAux f r; .ok (.cop .cgt :: ts)
      | '+', r => do let ts ← pyTokenizeAux f r; .ok (.bop .badd :: ts)
      | '-', r => do let ts ← pyTokenizeAux f r; .ok (.bop .bsub :: ts)
      | '*', r => do let ts ← pyTokenizeAux f r; .ok (.bop .bmul :: ts)
      | '/', r => do let ts ← pyTokenizeAux f r; .ok (.bop .bdiv :: ts)
      | '(', r => do let ts ← pyTokenizeAux f r; .ok (.lpar :: ts)
      | ')', r => do let ts ← pyTokenizeAux f r; .ok (.rpar :: ts)
      | ',', r => do let ts ← pyTokenizeAux f r; .ok (.comma :: ts)
      | _, _ => .error .synErr

/-- Tokenize a whole text for the `eval` model. -/
def pyTokenize (l : Chars) : Except PyErr (List PTok) :=
  pyTokenizeAux (l.length + 1) l

/-- Expressions of the `eval` model.  A chained comparison keeps its whole
operator/operand tail, mirroring Python's chaining semantics. -/
inductive PExpr where
  | lit (v : PyVal)
  | pname (x : Chars)
  | neg (e : PExpr)
  | pos (e : PExpr)
  | bin (o : PBinOp) (a b : PExpr)
  | cmps (a : PExpr) (rest : List (PCmpOp × PExpr))
  | call (x : Chars) (args : List PExpr)

mutual

/-- Parse a comparison chain (lowest precedence of the model). -/
def parseCmp : Nat → List PTok → Except PyErr (PExpr × List PTok)
  | 0, _ => .error .recursionErr
  | f + 1, ts => do
    let (a, r) ← parseAdd f ts
    let (rest, r') ← parseCmpTail f r
    match rest with
    | [] => .ok (a, r')
    | _ => .ok (.cmps a rest, r')

/-- Parse the `(op operand)*` tail of a comparison chain. -/
def parseCmpTail : Nat → List PTok → Except PyErr (List (PCmpOp × PExpr) × List PTok)
  | 0, _ => .error .recursionErr
  | f + 1, ts =>
    match ts with
    | .cop o :: r => do
      let (b, r') ← parseAdd f r
      let (rest, r'') ← parseCmpTail f r'
      .ok ((o, b) :: rest, r'')
    | _ => .ok ([], ts)

/-- Parse an additive expression. -/
def parseAdd : Nat → List PTok → Except PyErr (PExpr × List PTok)
  | 0, _ => .error .recursionErr
  | f + 1, ts => do
    let (a, r) ← parseTerm f ts
    parseAddTail f a r

/-- Left-associative tail of an additive expression. -/
def parseAddTail : Nat → PExpr → List PTok → Except PyErr (PExpr × List PTok)
  | 0, _, _ => .error .recursionErr
  | f + 1, a, ts =>
    match ts with
    | .bop .badd :: r => do
      let (b, r') ← parseTerm f r
      parseAddTail f (.bin .badd a b) r'
    | .bop .bsub :: r => do
      let (b, r') ← parseTerm f r
      parseAddTail f (.bin .bsub a b) r'
    | _ => .ok (a, ts)

/-- Parse a multiplicative expression. -/
def parseTerm : Nat → List PTok → Except PyErr (PExpr × List PTok)
  | 0, _ => .error .recursionErr
  | f + 1, ts => do
    let (a, r) ← parseUnary f ts
    parseTermTail f a r

/-- Left-associative tail of a multiplicative expression. -/
def parseTermTail : Nat → PExpr → List PTok → Except PyErr (PExpr × List PTok)
  | 0, _, _ => .error .recursionErr
  | f + 1, a, ts =>
    match ts with
    | .bop .bmul :: r => do
      let (b, r') ← parseUnary f r
      parseTermTail f (.bin .bmul a b) r'
    | .bop .bdiv :: r => do
      let (b, r') ← parseUnary f r
      parseTermTail f (.bin .bdiv a b) r'
    | _ => .ok (a, ts)

/-- Parse a unary expression (`-`/`+` prefixes). -/
def parseUnary : Nat → List PTok → Except PyErr (PExpr × List PTok)
  | 0, _ => .error .recursionErr
  | f + 1, ts =>
    match ts with
    | .bop .bsub :: r => do
      let (a, r') ← parseUnary f r
      .ok (.neg a, r')
    | .bop .badd :: r => do
      let (a, r') ← parseUnary f r
      .ok (.pos a, r')
    | _ => parseAtom f ts

/-- Parse an atom: literal, name, call or parenthesized expression.  The
keyword constants `True`, `False`, `None` parse as literals, as in Python. -/
def parseAtom : Nat → List PTok → Except PyErr (PExpr × List PTok)
  | 0, _ => .error .recursionErr
  | f + 1, ts =>
    match ts with
    | .tint n :: r => .ok (.lit (.vint n), r)
    | .tfloat q :: r => .ok (.lit (.vfloat q), r)
    | .tstr s :: r => .ok (.lit (.vstr s), r)
    | .tname x :: .lpar :: .rpar :: r => .ok (.call x [], r)
    | .tname x :: .lpar :: r => do
      let (args, r') ← parseArgs f r
      .ok (.call x args, r')
    | .tname x :: r =>
      if x = "True".data then .ok (.lit (.vbool true), r)
      else if x = "False".data then .ok (.lit (.vbool false), r)
      else if x = "None".data then .ok (.lit .vnone, r)
      else .ok (.pname x, r)
    | .lpar :: r => do
      let (a, r') ← parseCmp f r
      match r' with
      | .rpar :: r'' => .ok (a, r'')
      | _ => .error .synErr
    | _ => .error .synErr

/-- Parse a nonempty comma-separated argument list up to `)`. -/
def parseArgs : Nat → List PTok → Except PyErr (List PExpr × List PTok)
  | 0, _ => .error .recursionErr
  | f + 1, ts => do
    let (a, r) ← parseCmp f ts
    match r with
    | .comma :: r' => do
      let (rest, r'') ← parseArgs f r'
      .ok (a :: rest, r'')
    | .rpar :: r' => .ok ([a], r')
    | _ => .error .synErr

end

/-- Parse a full token sequence; the whole input must be consumed, as
Python `eval` rejects trailing tokens with a `SyntaxError`. -/
def pyParse (ts : List PTok) : Except PyErr PExpr := do
  let (a, r) ← parseCmp (16 * ts.length + 16) ts
  match r with
  | [] => .ok a
  | _ => .error .synErr

/-- Numeric view of an `eval` value: `bool` counts as its integer value, as
in Python arithmetic. -/
def pyArith : PyVal → Option (Int ⊕ Rat)
  | .vint i => some (.inl i)
  | .vbool b => some (.inl (if b then 1 else 0))
  | .vfloat q => some (.inr q)
  | _ => none

/-- Rational value of a numeric view. -/
def arithRat : Int ⊕ Rat → Rat
  | .inl i => (i : Rat)
  | .inr q => q

/-- Python `+` inside `eval`: numeric addition, string concatenation, or a
`TypeError`. -/
def pyAdd (a b : PyVal) : Except PyErr PyVal :=
  match pyArith a, pyArith b with
  | some (.inl i), some (.inl j) => .ok (.vint (i + j))
  | some x, some y => .ok (.vfloat (arithRat x + arithRat y))
  | _, _ =>
    match a, b with
    | .vstr s, .vstr t => .ok (.vstr (s ++ t))
    | _, _ => .error .typeErr

/-- Python `-` inside `eval`. -/
def pySub (a b : PyVal) : Except PyErr PyVal :=
  match pyArith a, pyArith b with
  | some (.inl i), some (.inl j) => .ok (.vint (i - j))
  | some x, some y => .ok (.vfloat (arithRat x - arithRat y))
  | _, _ => .error .typeErr

/-- Python `*` inside `eval`, including string repetition by an integer. -/
def pyMul (a b : PyVal) : Except PyErr PyVal :=
  match pyArith a, pyArith b with
  | some (.inl i), some (.inl j) => .ok (.vint (i * j))
  | some x, some y => .ok (.vfloat (arithRat x * arithRat y))
  | _, _ =>
    match a, b with
    | .vstr s, .vint n => .ok (.vstr (List.flatten (List.replicate n.toNat s)))
    | .vint n, .vstr s => .ok (.vstr (List.flatten (List.replicate n.toNat s)))
    | _, _ => .error .typeErr

/-- Python `/` inside `eval`: true division, always a `float`;
`ZeroDivisionError` on a zero divisor. -/
def pyDiv (a b : PyVal) : Except PyErr PyVal :=
  match pyArith a, pyArith b with
  | some x, some y =>
    if arithRat y = 0 then .error .zeroDiv
    else .ok (.vfloat (arithRat x / arithRat y))
  | _, _ => .error .typeErr

/-- Python unary `-` inside `eval`. -/
def pyNeg (a : PyVal) : Except PyErr PyVal :=
  match pyArith a with
  | some (.inl i) => .ok (.vint (-i))
  | some (.inr q) => .ok (.vfloat (-q))
  | none => .error .typeErr

/-- Python unary `+` inside `eval`. -/
def pyPos (a : PyVal) : Except PyErr PyVal :=
  match pyArith a with
  | some (.inl i) => .ok (.vint i)
  | some (.inr q) => .ok (.vfloat q)
  | none => .error .typeErr

/-- Lexicographic comparison of Python strings: `-1`, `0` or `1`. -/
def chCompare : Chars → Chars → Int
  | [], [] => 0
  | [], _ :: _ => -1
  | _ :: _, [] => 1
  | c :: s, d :: t =>
    if c.toNat < d.toNat then -1
    else if d.toNat < c.toNat then 1
    else chCompare s t

/-- Python `==` inside `eval`: numeric equality across numeric kinds,
structural equality within a kind, `False` across kinds. -/
def pyEq (a b : PyVal) : Bool :=
  match pyArith a, pyArith b with
  | some x, some y => arithRat x = arithRat y
  | _, _ =>
    match a, b with
    | .vstr s, .vstr t => s = t
    | .vnone, .vnone => true
    | _, _ => false

/-- Python ordered comparison inside `eval`: numeric or string-to-string;
mixing kinds is a `TypeError`. -/
def pyOrd (a b : PyVal) : Except PyErr Int :=
  match pyArith a, pyArith b with
  | some x, some y =>
    .ok (if arithRat x < arithRat y then -1 else if arithRat x = arithRat y then 0 else 1)
  | _, _ =>
    match a, b with
    | .vstr s, .vstr t => .ok (chCompare s t)
    | _, _ => .error .typeErr

/-- One comparison step of a Python comparison chain. -/
def pyCmpStep (o : PCmpOp) (a b : PyVal) : Except PyErr Bool :=
  match o with
  | .ceq => .ok (pyEq a b)
  | .cne => .ok (!pyEq a b)
  | .clt => do let c ← pyOrd a b; .ok (c = -1)
  | .cgt => do let c ← pyOrd a b; .ok (c = 1)
  | .cle => do let c ← pyOrd a b; .ok (c ≠ 1)
  | .cge => do let c ← pyOrd a b; .ok (c ≠ -1)

mutual

/-- Evaluate an expression of the `eval` model.  Bare names resolve in the
host module namespace (`globalsLookup`); an absent name is a `NameError`.
Calls evaluate the callee name first, then the arguments, then fail with
`TypeError` because no host value of this model is callable — BASIC's own
built-in functions are intercepted before `eval` is ever reached. -/
def evalP (H : Host) : PExpr → Except PyErr PyVal
  | .lit v => .ok v
  | .pname x =>
    match H.globalsLookup x with
    | some v => .ok v
    | none => .error .nameErr
  | .neg e => do let v ← evalP H e; pyNeg v
  | .pos e => do let v ← evalP H e; pyPos v
  | .bin o a b => do
    let x ← evalP H a
    let y ← evalP H b
    match o with
    | .badd => pyAdd x y
    | .bsub => pySub x y
    | .bmul => pyMul x y
    | .bdiv => pyDiv x y
  | .cmps a rest => do
    let x ← evalP H a
    let b ← evalChain H x rest
    .ok (.vbool b)
  | .call x args =>
    match H.globalsLookup x with
    | some _ => do
      let _ ← evalPList H args
      .error .typeErr
    | none => .error .nameErr

/-- Evaluate a comparison chain with Python's short-circuiting. -/
def evalChain (H : Host) : PyVal → List (PCmpOp × PExpr) → Except PyErr Bool
  | _, [] => .ok true
  | prev, (o, e) :: rest => do
    let v ← evalP H e
    let b ← pyCmpStep o prev v
    if b then evalChain H v rest else .ok false

/-- Evaluate an argument list left to right. -/
def evalPList (H : Host) : List PExpr → Except PyErr (List PyVal)
  | [] => .ok []
  | e :: rest => do
    let v ← evalP H e
    let vs ← evalPList H rest
    .ok (v :: vs)

end

/-- The whole `eval(expr)` of the host, as called by the legacy evaluator:
tokenize, parse (compile-time errors first), then evaluate. -/
def pyEval (H : Host) (l : Chars) : Except PyErr PyVal := do
  let ts ← pyTokenize l
  let a ← pyParse ts
  evalP H a

/-- `int(result) if result == int(result) else result` at
`c64_basic.py:368`: `int(...)` is computed first (possibly raising
`ValueError` on a non-numeric string), then the equality decides whether
the integer or the original value is returned. -/
def pyNormalize (v : PyVal) : Except PyErr Value :=
  match v with
  | .vint i => .ok (.num (.int i))
  | .vbool b => .ok (.num (.int (if b then 1 else 0)))
  | .vfloat q =>
    if (ratTrunc q : Rat) = q then .ok (.num (.int (ratTrunc q)))
    else .ok (.num (.float q))
  | .vstr s =>
    match pyIntParse s with
    | some _ => .ok (.str s)
    | none => .error .valueErr
  | .vnone => .error .typeErr

/-! ### `C64Basic.evaluate_expression` (c64_basic.py:285-371) -/

/-- Ordered variable environment: Python's insertion-ordered `dict`
`self.variables`.  Updating an existing key keeps its position; a new key
is appended. -/
abbrev VarEnv := List (Chars × Value)

/-- Python `dict` lookup (first — and only — matching key). -/
def alookup {β : Type} : List (Chars × β) → Chars → Option β
  | [], _ => none
  | (k, v) :: t, x => if k = x then some v else alookup t x

/-- Python `dict` assignment: update in place, else append. -/
def aset {β : Type} : List (Chars × β) → Chars → β → List (Chars × β)
  | [], x, v => [(x, v)]
  | (k, w) :: t, x, v => if k = x then (x, v) :: t else (k, w) :: aset t x v

/-- Python `del d[k]`: remove the (unique) entry with the given key. -/
def adel {β : Type} : List (Chars × β) → Chars → List (Chars × β)
  | [], _ => []
  | (k, w) :: t, x => if k = x then t else (k, w) :: adel t x

/-- The identifier test at c64_basic.py:294:
`expr.isalpha() or (expr[0].isalpha() and all(c.isalnum() or c == '$' for c in expr[1:]))`.
The caller guarantees `expr` nonempty (`expr[0]` raises `IndexError`
otherwise, which the caller models separately). -/
def isVarExpr (c : Char) (rest : Chars) : Bool :=
  (c :: rest).all isAlphaCh || (isAlphaCh c && rest.all (fun d => isAlnumCh d || d = '$'))

/-- The match of `re.match(r'(\w+)\s*\((.*)\)', expr)` at c64_basic.py:302.
Because `\s*\(` can never consume a word character, the greedy `\w+` never
usefully backtracks: the match succeeds exactly when a maximal nonempty
`\w+` prefix is followed by optional whitespace and `(`, and the remainder
contains a `)`.  The greedy `(.*)` captures up to the last `)`; any
trailing text after that `)` is ignored, since `re.match` anchors only the
start. -/
def funcMatch (expr : Chars) : Option (Chars × Chars) :=
  let w := expr.takeWhile isWordCh
  let r1 := expr.dropWhile isWordCh
  if w = [] then none
  else
    match r1.dropWhile isSpaceCh with
    | '(' :: body =>
      let rev := body.reverse
      match rev.dropWhile (fun c => c ≠ ')') with
      | ')' :: inner => some (w, inner.reverse)
      | _ => none
    | _ => none

/-- The keys of `self.functions` (c64_basic.py:65-80).  `CHR$` and `STR$`
are present but can never be produced by the `\w+` capture group, which
cannot contain `$`. -/
def funcNames : List Chars :=
  ["ABS".data, "SQR".data, "SIN".data, "COS".data, "TAN".data, "LOG".data,
   "EXP".data, "INT".data, "RND".data, "LEN".data, "CHR$".data, "ASC".data,
   "STR$".data, "VAL".data]

/-- The argument-splitting loop at c64_basic.py:309-325: split on commas at
parenthesis depth 0; parentheses themselves stay in the current argument;
a trailing nonempty chunk is appended stripped. -/
def splitArgsAux : Chars → Int → Chars → List Chars
  | acc, _, [] => if acc = [] then [] else [chStrip acc.reverse]
  | acc, depth, c :: t =>
    if c = '(' then splitArgsAux (c :: acc) (depth + 1) t
    else if c = ')' then splitArgsAux (c :: acc) (depth - 1) t
    else if c = ',' ∧ depth = 0 then chStrip acc.reverse :: splitArgsAux [] depth t
    else splitArgsAux (c :: acc) depth t

/-- Split a function-call argument string as the code does. -/
def splitArgs (argsStr : Chars) : List Chars := splitArgsAux [] 0 argsStr

/-- `math.sqrt` and friends applied to an interpreter value: a string
operand is a `TypeError`; a host domain error is a `ValueError`. -/
def applyMathFn (f : Rat → Option Rat) : Value → Except PyErr Value
  | .num n =>
    let q := match n with | .int i => (i : Rat) | .float q => q
    match f q with
    | some r => .ok (.num (.float r))
    | none => .error .valueErr
  | .str _ => .error .typeErr

/-- Python `abs(...)` on an interpreter value. -/
def applyAbs : Value → Except PyErr Value
  | .num (.int i) => .ok (.num (.int |i|))
  | .num (.float q) => .ok (.num (.float |q|))
  | .str _ => .error .typeErr

/-- `evaluated_args[0]` (raises `IndexError` on an empty list). -/
def firstArg : List Value → Except PyErr Value
  | [] => .error .indexErr
  | v :: _ => .ok v

/-- The dispatch on `func_name` at c64_basic.py:334-343.  `RND` ignores its
evaluated arguments; `CHR$`/`STR$`/`ASC` index `evaluated_args[0]`
directly; `LEN` measures `str(arg)`; every other entry is a unary Python
function applied via `*args`, so a wrong argument count is a `TypeError`. -/
def applyFunc (H : Host) (name : Chars) (args : List Value) : Except PyErr Value :=
  if name = "RND".data then .ok (.num (.float H.rnd))
  else if name = "CHR$".data then do
    let v ← firstArg args
    match v with
    | .num (.int i) =>
      if 0 ≤ i ∧ i < 1114112 then .ok (.str [Char.ofNat i.toNat])
      else .error .valueErr
    | _ => .error .typeErr
  else if name = "STR$".data then do
    let v ← firstArg args
    .ok (.str (pyValueStr H v))
  else if name = "ASC".data then do
    let v ← firstArg args
    match v with
    | .str [c] => .ok (.num (.int c.toNat))
    | .str _ => .error .typeErr
    | _ => .error .typeErr
  else if name = "LEN".data then do
    let v ← firstArg args
    .ok (.num (.int (pyValueStr H v).length))
  else
    match args with
    | [v] =>
      if name = "ABS".data then applyAbs v
      else if name = "INT".data then do
        let i ← pyIntOfValue v
        .ok (.num (.int i))
      else if name = "VAL".data then do
        let q ← pyFloatOfValue H v
        .ok (.num (.float q))
      else if name = "SQR".data then applyMathFn H.sqr v
      else if name = "SIN".data then applyMathFn H.sin v
      else if name = "COS".data then applyMathFn H.cos v
      else if name = "TAN".data then applyMathFn H.tan v
      else if name = "LOG".data then applyMathFn H.log v
      else if name = "EXP".data then applyMathFn H.exp v
      else .error .typeErr
    | _ => .error .typeErr

/-- The text substituted for a variable at c64_basic.py:348-352: a string
value is wrapped in double quotes, a number becomes its `str(...)` text. -/
def substText (H : Host) : Value → Chars
  | .str s => '"' :: (s ++ ['"'])
  | .num n => pyNumStr H n

/-- The substitution loop: `for var_name, var_value in self.variables.items():
expr = expr.replace(...)`, in dictionary insertion order. -/
def substituteVars (H : Host) (vars : VarEnv) (expr : Chars) : Chars :=
  vars.foldl (fun e p => chReplace p.1 (substText H p.2) e) expr

/-- One pass of the string-concatenation branch (c64_basic.py:355-364):
each `+`-separated part contributes its quoted interior, or the `str(...)`
of a recursive evaluation. -/
def concatParts (evalFn : Chars → Except PyErr Value) (H : Host) :
    List Chars → Except PyErr Chars
  | [] => .ok []
  | p :: rest => do
    let part := chStrip p
    let piece ←
      match part with
      | c :: t =>
        if c = '"' ∧ (c :: t).getLast? = some '"' then
          .ok ((c :: t).drop 1 |>.dropLast)
        else do
          let v ← evalFn part
          .ok (pyValueStr H v)
      | [] => do
        let v ← evalFn part
        .ok (pyValueStr H v)
    let tail ← concatParts evalFn H rest
    .ok (piece ++ tail)

/-- Evaluate every nonempty argument text (c64_basic.py:328-331); errors
propagate, as this loop is outside the `try`. -/
def evalArgsList (evalFn : Chars → Except PyErr Value) :
    List Chars → Except PyErr (List Value)
  | [] => .ok []
  | a :: rest =>
    if a = [] then evalArgsList evalFn rest
    else do
      let v ← evalFn a
      let vs ← evalArgsList evalFn rest
      .ok (v :: vs)

/-- The arithmetic tail of the evaluator (c64_basic.py:345-371), i.e. the
body of the `try`: substitute variables textually, take the
string-concatenation branch when the substituted text contains both `+`
and `"`, otherwise hand the text to the host `eval` and normalize.  The
caller maps any `.error` to the integer 0 (the bare `except`). -/
def arithBlock (H : Host) (evalFn : Chars → Except PyErr Value)
    (vars : VarEnv) (expr : Chars) : Except PyErr Value :=
  let expr := substituteVars H vars expr
  if chContains ['+'] expr ∧ chContains ['"'] expr then do
    let s ← concatParts evalFn H (chSplitOn ['+'] expr)
    .ok (.str s)
  else do
    let v ← pyEval H expr
    pyNormalize v

/-- `C64Basic.evaluate_expression` (c64_basic.py:285-371), fuelled.
Exhausted fuel models Python's `RecursionError`.  The branches, in source
order: strip; return the interior of a text that starts and ends with `"`;
resolve a pure identifier against the environment with kind defaults (an
empty text raises `IndexError` at `expr[0]`); intercept a built-in function
call matched by the regex; otherwise run the arithmetic block, whose
errors the bare `except` converts to the integer 0. -/
def evaluate_expression (H : Host) : Nat → VarEnv → Chars → Except PyErr Value
  | 0, _, _ => .error .recursionErr
  | f + 1, vars, expr0 =>
    let expr := chStrip expr0
    match expr with
    | [] => .error .indexErr
    | c :: t =>
      if c = '"' ∧ (c :: t).getLast? = some '"' then
        .ok (.str ((c :: t).drop 1 |>.dropLast))
      else if isVarExpr c t then
        match alookup vars expr with
        | some v => .ok v
        | none =>
          .ok (if expr.getLast? = some '$' then .str [] else .num (.int 0))
      else
        match funcMatch expr with
        | some (fname, argsStr) =>
          if chUpper fname ∈ funcNames then do
            let args ← evalArgsList (evaluate_expression H f vars) (splitArgs argsStr)
            applyFunc H (chUpper fname) args
          else
            match arithBlock H (evaluate_expression H f vars) vars expr with
            | .ok v => .ok v
            | .error _ => .ok (.num (.int 0))
        | none =>
          match arithBlock H (evaluate_expression H f vars) vars expr with
          | .ok v => .ok v
          | .error _ => .ok (.num (.int 0))

/-! ### Interpreter state and statement execution (c64_basic.py:373-768)

Output is modelled as the ordered list of text chunks the process prints;
`check_color_support` is `false` in this model (the non-tty collaborator
boundary), so `color_print(text, ...)` prints `text` verbatim and
`set_color` does nothing.  Pending stdin lines for INPUT live in `inputs`;
SAVE records its written file in `saves` (the persistence collaborator). -/

/-- Python `dict` lookup for integer keys. -/
def ilookup {β : Type} : List (Int × β) → Int → Option β
  | [], _ => none
  | (k, v) :: t, x => if k = x then some v else ilookup t x

/-- Python `dict` assignment for integer keys: update in place or append. -/
def iset {β : Type} : List (Int × β) → Int → β → List (Int × β)
  | [], x, v => [(x, v)]
  | (k, w) :: t, x, v => if k = x then (x, v) :: t else (k, w) :: iset t x v

/-- Python `del d[k]` for integer keys. -/
def idel {β : Type} : List (Int × β) → Int → List (Int × β)
  | [], _ => []
  | (k, w) :: t, x => if k = x then t else (k, w) :: idel t x

/-- Insert into a sorted list of line numbers. -/
def insSorted (x : Int) : List Int → List Int
  | [] => [x]
  | y :: t => if x ≤ y then x :: y :: t else y :: insSorted x t

/-- `sorted(self.lines.keys())`. -/
def sortKeys (ls : List (Int × Chars)) : List Int :=
  ls.foldr (fun p acc => insSorted p.1 acc) []

/-- `min(self.lines.keys())` (0 for an empty table, never used that way). -/
def minKey (ls : List (Int × Chars)) : Int :=
  match sortKeys ls with
  | [] => 0
  | k :: _ => k

/-- `line_numbers[current_index + 1]` after `line_numbers.index(p)`, or
`None` past the end: the key following `p` in sorted order. -/
def nextAfter : List Int → Int → Option Int
  | [], _ => none
  | k :: t, p => if k = p then t.head? else nextAfter t p

/-- One FOR frame as stored in `self.for_loops` (c64_basic.py:684-690).
`stop` is the dictionary key `'end'` of the source. -/
structure ForLoop where
  start : Value
  stop : Value
  step : Value
  current : Value
  return_line : Option Int
deriving DecidableEq

/-- The whole interpreter state of one `C64Basic` instance. -/
structure Interp where
  vars : VarEnv
  lines : List (Int × Chars)
  current_line : Int
  program_counter : Option Int
  running : Bool
  for_loops : List (Chars × ForLoop)
  gosub_stack : List (Option Int)
  output : List Chars
  inputs : List Chars
  saves : List (Chars × List Chars)
deriving DecidableEq

/-- The state built by `C64Basic.__init__` (c64_basic.py:54-88), with the
given pending input lines. -/
def initState (inputs : List Chars) : Interp where
  vars :=
    [("TI".data, .num (.int 0)), ("TI$".data, .str "000000".data),
     ("CO".data, .num (.int 0)), ("BG".data, .num (.int 6))]
  lines := []
  current_line := 0
  program_counter := some 0
  running := false
  for_loops := []
  gosub_stack := []
  output := []
  inputs := inputs
  saves := []

/-- An exception escaping a statement, carrying the state at raise time
(Python does not roll back mutations), or exhaustion of the run-loop fuel
(modelling divergence, never caught). -/
inductive RunErr where
  | py (e : PyErr) (s : Interp)
  | fuelOut (s : Interp)
deriving DecidableEq

/-- Result of executing state-mutating code. -/
abbrev EResult := Except RunErr Interp

/-- Append one printed chunk to the output. -/
def emit (s : Interp) (chunk : Chars) : Interp :=
  { s with output := s.output ++ [chunk] }

/-- `print_error` (c64_basic.py:182-184): prints `?<message>` on its own
line. -/
def printErr (s : Interp) (msg : Chars) : Interp :=
  emit s ('?' :: (msg ++ ['\n']))

/-- Lift a pure evaluation into the stateful error monad, attaching the
current state to a raised exception. -/
def runEval {α : Type} (s : Interp) : Except PyErr α → Except RunErr α
  | .ok v => .ok v
  | .error e => .error (.py e s)

/-- Python truthiness of an `eval` result. -/
def pyTruthy : PyVal → Bool
  | .vint i => i ≠ 0
  | .vbool b => b
  | .vfloat q => q ≠ 0
  | .vstr s => s ≠ []
  | .vnone => false

/-- Python `+` on two stored interpreter values (used by `handle_next` on
`loop['current'] += loop['step']`). -/
def pyAddValues : Value → Value → Except PyErr Value
  | .num (.int i), .num (.int j) => .ok (.num (.int (i + j)))
  | .num a, .num b =>
    let qa := match a with | .int i => (i : Rat) | .float q => q
    let qb := match b with | .int i => (i : Rat) | .float q => q
    .ok (.num (.float (qa + qb)))
  | .str a, .str b => .ok (.str (a ++ b))
  | _, _ => .error .typeErr

/-- Python ordered comparison of two stored values: `-1`, `0`, `1`;
numeric-to-string is a `TypeError`. -/
def pyOrdValues : Value → Value → Except PyErr Int
  | .num a, .num b =>
    let qa := match a with | .int i => (i : Rat) | .float q => q
    let qb := match b with | .int i => (i : Rat) | .float q => q
    .ok (if qa < qb then -1 else if qa = qb then 0 else 1)
  | .str a, .str b => .ok (chCompare a b)
  | _, _ => .error .typeErr

/-- Python `v > 0` on a stored value. -/
def pyGtZero : Value → Except PyErr Bool
  | .num (.int i) => .ok (0 < i)
  | .num (.float q) => .ok (0 < q)
  | .str _ => .error .typeErr

/-- Python `v < 0` on a stored value. -/
def pyLtZero : Value → Except PyErr Bool
  | .num (.int i) => .ok (i < 0)
  | .num (.float q) => .ok (q < 0)
  | .str _ => .error .typeErr

/-- `C64Basic.parse_line` (c64_basic.py:373-386): strip, split off a
leading all-digit word as the line number. -/
def parse_line (line : Chars) : Option Int × Chars :=
  let line := chStrip line
  if line = [] then (none, [])
  else
    match chSplitFirst [' '] line with
    | some (p0, rest) =>
      if p0 ≠ [] ∧ p0.all isDigitCh then (some (digitsToNat p0), rest) else (none, line)
    | none =>
      if line.all isDigitCh then (some (digitsToNat line), []) else (none, line)

/-- The scanning loop of `handle_print` (c64_basic.py:519-543): split the
argument text on `;`/`,` outside string literals and parentheses, keeping
each separator as its own part. -/
def printParts : Chars → Chars → Bool → Int → List Chars
  | acc, [], _, _ => if acc = [] then [] else [chStrip acc.reverse]
  | acc, c :: t, inStr, depth =>
    if c = '"' then printParts (c :: acc) t (!inStr) depth
    else if c = '(' then printParts (c :: acc) t inStr (depth + 1)
    else if c = ')' then printParts (c :: acc) t inStr (depth - 1)
    else if (c = ';' ∨ c = ',') ∧ inStr = false ∧ depth = 0 then
      chStrip acc.reverse :: [c] :: printParts [] t inStr depth
    else printParts (c :: acc) t inStr depth

/-- The tab padding of the `,` separator: `" " * (16 - (len(output) % 16))`. -/
def tabPad (n : Nat) : Chars := List.replicate (16 - n % 16) ' '

/-- The part-processing loop of `handle_print` (c64_basic.py:545-556). -/
def printJoin (evalFn : Chars → Except PyErr Value) (H : Host) :
    Chars → List Chars → Except PyErr Chars
  | out, [] => .ok out
  | out, p :: rest =>
    if p = [';'] then printJoin evalFn H out rest
    else if p = [','] then printJoin evalFn H (out ++ tabPad out.length) rest
    else do
      let v ← evalFn p
      printJoin evalFn H (out ++ pyValueStr H v) rest

/-- `C64Basic.handle_print` (c64_basic.py:510-562). -/
def handle_print (H : Host) (f : Nat) (s : Interp) (args : Chars) : EResult :=
  if args = [] then .ok (emit s ['\n'])
  else
    let endsSemi := (chStrip args).getLast? = some ';'
    let parts := printParts [] args false 0
    match printJoin (evaluate_expression H f s.vars) H [] parts with
    | .error e => .error (.py e s)
    | .ok out => .ok (emit s (if endsSemi then out else out ++ ['\n']))

/-- The per-variable body of the multi-variable INPUT loop
(c64_basic.py:596-605). -/
def inputAssign (H : Host) (vars : VarEnv) (name : Chars) (raw : Chars) : VarEnv :=
  if name.getLast? = some '$' then aset vars name (.str raw)
  else
    match H.parseFloat raw with
    | some q => aset vars name (.num (.float q))
    | none => aset vars name (.num (.int 0))

/-- The multi-variable INPUT loop: variable `i` receives field `i` of the
comma-split input when present, and is left untouched otherwise. -/
def inputMulti (H : Host) : VarEnv → List Chars → List Chars → VarEnv
  | vars, [], _ => vars
  | vars, _ :: _, [] => vars
  | vars, name :: names, fld :: flds =>
    inputMulti H (inputAssign H vars name (chStrip fld)) names flds

/-- `C64Basic.handle_input` (c64_basic.py:564-607). -/
def handle_input (H : Host) (s : Interp) (args0 : Chars) : EResult :=
  let (prompt, args) :=
    match args0 with
    | '"' :: t =>
      match chFindSub ['"'] t with
      | some j => ((t.take j), chStrip (t.drop (j + 1)))
      | none => ([], args0)
    | _ => ([], args0)
  let s := emit s (if prompt ≠ [] then prompt else "? ".data)
  match s.inputs with
  | [] => .ok (printErr s "REDO FROM START".data)
  | line :: restIn =>
    let s := { s with inputs := restIn }
    let varNames := (chSplitOn [','] args).map chStrip
    match varNames with
    | [vn] =>
      if vn.getLast? = some '$' then
        .ok { s with vars := aset s.vars vn (.str line) }
      else
        match H.parseFloat line with
        | some q => .ok { s with vars := aset s.vars vn (.num (.float q)) }
        | none => .ok { s with vars := aset s.vars vn (.num (.int 0)) }
    | _ =>
      .ok { s with vars := inputMulti H s.vars varNames (chSplitOn [','] line) }

/-- `C64Basic.handle_assignment` (c64_basic.py:609-620): strip a literal
`LET ` prefix (case-sensitively, on the original text), split at the first
`=`, evaluate the right side and store it under the raw left-side name. -/
def handle_assignment (H : Host) (f : Nat) (s : Interp) (command : Chars) : EResult :=
  let command := if "LET ".data.isPrefixOf command then command.drop 4 else command
  match chSplitFirst ['='] command with
  | none => .ok s
  | some (varPart, exprPart) =>
    let varName := chStrip varPart
    let expr := chStrip exprPart
    match evaluate_expression H f s.vars expr with
    | .error e => .error (.py e s)
    | .ok v => .ok { s with vars := aset s.vars varName v }

/-- `C64Basic.handle_for` (c64_basic.py:654-693).  Note: reachable from
dispatch only for texts without `=`, which this handler immediately
rejects, so it can never successfully install a frame (see claim C1). -/
def handle_for (H : Host) (f : Nat) (s : Interp) (command : Chars) : EResult :=
  let forPart := chStrip (command.drop 3)
  if chContains ['='] forPart = false then .ok (printErr s "SYNTAX ERROR".data)
  else
    match chSplitFirst ['='] forPart with
    | none => .ok (printErr s "SYNTAX ERROR".data)
    | some (varPart, rest) =>
      let varName := chStrip varPart
      if chContains " TO ".data rest = false then .ok (printErr s "SYNTAX ERROR".data)
      else
        match chSplitFirst " TO ".data rest with
        | none => .ok (printErr s "SYNTAX ERROR".data)
        | some (toPart, stepPart) => do
          let startValue ← runEval s (evaluate_expression H f s.vars (chStrip toPart))
          let (endValue, step) ←
            if chContains " STEP ".data stepPart then
              match chSplitFirst " STEP ".data stepPart with
              | some (stepExpr, stepValue) => do
                let e ← runEval s (evaluate_expression H f s.vars (chStrip stepExpr))
                let st ← runEval s (evaluate_expression H f s.vars (chStrip stepValue))
                pure (e, st)
              | none => pure (.num (.int 0), .num (.int 0))
            else do
              let e ← runEval s (evaluate_expression H f s.vars (chStrip stepPart))
              pure (e, .num (.int 1))
          let frame : ForLoop :=
            { start := startValue, stop := endValue, step := step,
              current := startValue, return_line := s.program_counter }
          .ok { s with
                for_loops := aset s.for_loops varName frame,
                vars := aset s.vars varName startValue }

/-- `C64Basic.handle_next` (c64_basic.py:695-716). -/
def handle_next (s : Interp) (varName : Chars) : EResult :=
  match alookup s.for_loops varName with
  | none => .ok (printErr s "NEXT WITHOUT FOR ERROR".data)
  | some loop => do
    let current ← runEval s (pyAddValues loop.current loop.step)
    let loop := { loop with current := current }
    let s := { s with
               for_loops := aset s.for_loops varName loop,
               vars := aset s.vars varName current }
    let stepPos ← runEval s (pyGtZero loop.step)
    let s ←
      if stepPos then do
        let c ← runEval s (pyOrdValues loop.current loop.stop)
        pure (if c ≤ 0 then { s with program_counter := loop.return_line } else s)
      else do
        let c ← runEval s (pyOrdValues loop.current loop.stop)
        pure (if 0 ≤ c then { s with program_counter := loop.return_line } else s)
    let finished ←
      if stepPos then do
        let c ← runEval s (pyOrdValues loop.current loop.stop)
        pure (decide (c = 1))
      else do
        let stepNeg ← runEval s (pyLtZero loop.step)
        if stepNeg then do
          let c ← runEval s (pyOrdValues loop.current loop.stop)
          pure (decide (c = -1))
        else pure false
    .ok (if finished then { s with for_loops := adel s.for_loops varName } else s)

/-- `C64Basic.list_program` (c64_basic.py:718-725). -/
def list_program (s : Interp) : Interp :=
  if s.lines = [] then emit s "READY.\n".data
  else
    (sortKeys s.lines).foldl
      (fun st n =>
        emit st (intRepr n ++ (' ' :: ((ilookup s.lines n).getD [] ++ ['\n']))))
      s

/-- `C64Basic.handle_color` (c64_basic.py:200-218); `set_color` is a no-op
at the modelled non-tty boundary.  All raises happen before any mutation,
so the `except` restores the entry state. -/
def handle_color (H : Host) (f : Nat) (s : Interp) (args : Chars) : EResult :=
  let attempt : Except PyErr VarEnv :=
    if chContains [','] args then
      match chSplitOn [','] args with
      | p0 :: p1 :: _ => do
        let fg ← evaluate_expression H f s.vars (chStrip p0)
        let fgi ← pyIntOfValue fg
        let bg ← evaluate_expression H f s.vars (chStrip p1)
        let bgi ← pyIntOfValue bg
        .ok (aset (aset s.vars "CO".data (.num (.int fgi))) "BG".data (.num (.int bgi)))
      | _ => .error .indexErr
    else do
      let fg ← evaluate_expression H f s.vars args
      let fgi ← pyIntOfValue fg
      .ok (aset s.vars "CO".data (.num (.int fgi)))
  match attempt with
  | .ok vars => .ok { s with vars := vars }
  | .error _ => .ok (printErr s "SYNTAX ERROR".data)

/-- `C64Basic.handle_load` (c64_basic.py:220-255), over the host file
system.  Loading clears the program and installs every parsed
`<number> <text>` line of the file. -/
def handle_load (H : Host) (s : Interp) (args : Chars) : EResult :=
  let filename := chStripChar '"' (chStrip args)
  if filename = [] then .ok (printErr s "MISSING FILENAME".data)
  else
    let filename :=
      if ".bas".data.isSuffixOf (chLower filename) then filename
      else filename ++ ".bas".data
    match H.readFile filename with
    | none => .ok (printErr s ("FILE NOT FOUND: ".data ++ filename))
    | some fileLines =>
      let s := { s with lines := [] }
      let s :=
        fileLines.foldl
          (fun st line =>
            let line := chStrip line
            if line = [] then st
            else
              match parse_line line with
              | (some n, cmd) =>
                if cmd ≠ [] then { st with lines := iset st.lines n cmd } else st
              | (none, _) => st)
          s
      let s := emit s ("LOADING \"".data ++ filename ++ "\"\n".data)
      .ok (emit s "READY.\n".data)

/-- `C64Basic.handle_save` (c64_basic.py:257-283): the written file is
recorded in `saves` (the persistence collaborator boundary). -/
def handle_save (H : Host) (s : Interp) (args : Chars) : EResult :=
  let filename := chStripChar '"' (chStrip args)
  if filename = [] then .ok (printErr s "MISSING FILENAME".data)
  else
    let filename :=
      if ".bas".data.isSuffixOf (chLower filename) then filename
      else filename ++ ".bas".data
    let rendered :=
      (sortKeys s.lines).map
        (fun n => intRepr n ++ (' ' :: ((ilookup s.lines n).getD [] ++ ['\n'])))
    let s := { s with saves := s.saves ++ [(filename, rendered)] }
    let s := emit s ("SAVING \"".data ++ filename ++ "\"\n".data)
    .ok (emit s "READY.\n".data)

/-- The handler that the dispatch chain of `execute_command`
(c64_basic.py:396-508) selects, in the source's `elif` order. -/
inductive Handler where
  | pr | inp | assign | ifThen | forH | nextH | goto | gosub | ret | rem
  | cls | listH | runH | newH | endH | wait | poke | peek | sysH | load
  | save | color | screen | unknown
deriving DecidableEq

/-- The `elif` chain of `execute_command`, applied to the uppercased
stripped command text (every condition in the source tests `command`). -/
def dispatchOf (command : Chars) : Handler :=
  if "PRINT".data.isPrefixOf command then .pr
  else if "INPUT".data.isPrefixOf command then .inp
  else if chContains ['='] command then .assign
  else if "IF".data.isPrefixOf command then .ifThen
  else if "FOR".data.isPrefixOf command then .forH
  else if "NEXT".data.isPrefixOf command then .nextH
  else if "GOTO".data.isPrefixOf command then .goto
  else if "GOSUB".data.isPrefixOf command then .gosub
  else if command = "RETURN".data then .ret
  else if "REM".data.isPrefixOf command then .rem
  else if command = "CLS".data then .cls
  else if "LIST".data.isPrefixOf command then .listH
  else if command = "RUN".data then .runH
  else if command = "NEW".data then .newH
  else if command = "END".data then .endH
  else if "WAIT".data.isPrefixOf command then .wait
  else if "POKE".data.isPrefixOf command then .poke
  else if "PEEK".data.isPrefixOf command then .peek
  else if "SYS".data.isPrefixOf command then .sysH
  else if "LOAD".data.isPrefixOf command then .load
  else if "SAVE".data.isPrefixOf command then .save
  else if "COLOR".data.isPrefixOf command then .color
  else if "SCREEN".data.isPrefixOf command then .screen
  else .unknown

mutual

/-- `C64Basic.execute_command` (c64_basic.py:388-508).  Fuel exhaustion
models Python's catchable `RecursionError`. -/
def execute_command : Nat → Host → Interp → Chars → EResult
  | 0, _, s, _ => .error (.py .recursionErr s)
  | f + 1, H, s, cmdtext =>
    let original := chStrip cmdtext
    let command := chUpper original
    if command = [] then .ok s
    else
      match dispatchOf command with
      | .pr => handle_print H f s (chStrip (original.drop 5))
      | .inp => handle_input H s (chStrip (original.drop 5))
      | .assign => handle_assignment H f s original
      | .ifThen => handle_if_then f H s original
      | .forH => handle_for H f s original
      | .nextH => handle_next s (chStrip (original.drop 4))
      | .goto => do
        let v ← runEval s (evaluate_expression H f s.vars (chStrip (original.drop 4)))
        let target ← runEval s (pyIntOfValue v)
        .ok { s with program_counter := some target }
      | .gosub => do
        let v ← runEval s (evaluate_expression H f s.vars (chStrip (original.drop 5)))
        let target ← runEval s (pyIntOfValue v)
        .ok { s with
              gosub_stack := s.gosub_stack ++ [s.program_counter],
              program_counter := some target }
      | .ret =>
        match s.gosub_stack.getLast? with
        | none => .ok s
        | some r =>
          .ok { s with program_counter := r, gosub_stack := s.gosub_stack.dropLast }
      | .rem => .ok s
      | .cls => .ok (emit s (List.replicate 51 '\n'))
      | .listH => .ok (list_program s)
      | .runH => run_program f H s
      | .newH =>
        .ok (emit { s with lines := [], vars := [], program_counter := some 0 }
              "READY.\n".data)
      | .endH => .ok { s with running := false }
      | .wait =>
        match (do
            let v ← evaluate_expression H f s.vars (chStrip (original.drop 4))
            pyFloatOfValue H v : Except PyErr Rat) with
        | _ => .ok s
      | .poke => .ok (emit s "POKE: Memory location simulated\n".data)
      | .peek => .ok (emit s "PEEK: Memory location simulated\n".data)
      | .sysH => .ok (emit s "SYS: Machine language call simulated\n".data)
      | .load => handle_load H s (chStrip (original.drop 4))
      | .save => handle_save H s (chStrip (original.drop 4))
      | .color => handle_color H f s (chStrip (original.drop 5))
      | .screen =>
        match (do
            let v ← evaluate_expression H f s.vars (chStrip (original.drop 6))
            pyIntOfValue v : Except PyErr Int) with
        | .ok bg => .ok { s with vars := aset s.vars "BG".data (.num (.int bg)) }
        | .error _ => .ok (printErr s "SYNTAX ERROR".data)
      | .unknown =>
        .ok (printErr s ("SYNTAX ERROR IN ".data ++ intRepr s.current_line))
termination_by structural f => f

/-- `C64Basic.handle_if_then` (c64_basic.py:622-652).  The `try` wraps the
nested `execute_command(action)`, so any exception of the action — but not
divergence — is reported as `SYNTAX ERROR` on the state at raise time. -/
def handle_if_then : Nat → Host → Interp → Chars → EResult
  | 0, _, s, _ => .error (.py .recursionErr s)
  | f + 1, H, s, command =>
    let ifPart := chStrip (command.drop 2)
    match chFindSub "THEN".data ifPart with
    | none => .ok (printErr s "SYNTAX ERROR".data)
    | some ti =>
      let condition := chStrip (ifPart.take ti)
      let action := chStrip (ifPart.drop (ti + 4))
      let condition := chReplace ['='] "==".data condition
      let condition := chReplace "<>".data "!=".data condition
      let condition := substituteVars H s.vars condition
      match pyEval H condition with
      | .error _ => .ok (printErr s "SYNTAX ERROR".data)
      | .ok v =>
        if pyTruthy v then
          match execute_command f H s action with
          | .ok s' => .ok s'
          | .error (.py _ s') => .ok (printErr s' "SYNTAX ERROR".data)
          | .error (.fuelOut s') => .error (.fuelOut s')
        else .ok s
termination_by structural f => f

/-- `C64Basic.run_program` (c64_basic.py:727-753). -/
def run_program : Nat → Host → Interp → EResult
  | 0, _, s => .error (.py .recursionErr s)
  | f + 1, H, s =>
    if s.lines = [] then .ok (emit s "READY.\n".data)
    else
      match runLoopAux f H
          { s with running := true, program_counter := some (minKey s.lines) } with
      | .error e => .error e
      | .ok s' => .ok (emit s' "READY.\n".data)
termination_by structural f => f

/-- The while loop of `run_program` (c64_basic.py:736-751): before a
statement executes, the program counter is advanced to the next line in
sorted order (`None` past the end); the executed statement may overwrite
it.  Fuel exhaustion here models divergence and is never caught. -/
def runLoopAux : Nat → Host → Interp → EResult
  | 0, _, s => .error (.fuelOut s)
  | f + 1, H, s =>
    if s.running = false then .ok s
    else
      match s.program_counter with
      | none => .ok s
      | some p =>
        match ilookup s.lines p with
        | none => .ok s
        | some cmd =>
          let nxt := nextAfter (sortKeys s.lines) p
          match execute_command f H { s with program_counter := nxt } cmd with
          | .error e => .error e
          | .ok s2 => if s2.program_counter = none then .ok s2 else runLoopAux f H s2
termination_by structural f => f

end

/-- `C64Basic.add_line` (c64_basic.py:755-768). -/
def add_line (f : Nat) (H : Host) (s : Interp) (line : Chars) : EResult :=
  match parse_line line with
  | (some n, cmd) =>
    if cmd ≠ [] then .ok { s with lines := iset s.lines n cmd }
    else .ok { s with lines := idel s.lines n }
  | (none, cmd) => execute_command f H s cmd

/-! ### Claim checking -/

/-- Modelled from the spec: the identifier tokens of an expression text in
the sense of the specification's lexer (maximal letter-initiated runs of
alphanumeric characters and `$`).  Used only to state what "occurs as an
identifier token of the expression" means in claim C9; the legacy code has
no such notion, which is what the claim is about. -/
def identTokensAux : Nat → Chars → List Chars
  | 0, _ => []
  | _ + 1, [] => []
  | f + 1, c :: t =>
    if isAlphaCh c then
      (c :: t.takeWhile (fun d => isAlnumCh d || d = '$')) ::
        identTokensAux f (t.dropWhile (fun d => isAlnumCh d || d = '$'))
    else identTokensAux f t

/-- See `identTokensAux`; fuel `l.length + 1` always suffices. -/
def identTokens (l : Chars) : List Chars := identTokensAux (l.length + 1) l

/-- The empty-stdin initial interpreter state. -/
def st0 : Interp := initState []

/-- A program store built from numbered source lines. -/
def mkProg (ls : List (Int × String)) : Interp :=
  { st0 with lines := ls.map (fun p => (p.1, p.2.data)) }

/-- The three-line FOR/NEXT program of claim C2. -/
def c2Prog : Interp :=
  mkProg [(10, "FOR I=1 TO 3"), (20, "PRINT I"), (30, "NEXT I")]

/-- A program whose GOTO targets a line number that is not stored. -/
def c4ProgAbsent : Interp :=
  mkProg [(10, "GOTO 100"), (20, "PRINT \"HI\"")]

/-- A program whose GOTO targets a stored line, skipping line 20. -/
def c4ProgPresent : Interp :=
  mkProg [(10, "GOTO 30"), (20, "PRINT \"A\""), (30, "PRINT \"B\"")]

/-- A state holding one live FOR frame and one GOSUB return address. -/
def c8State : Interp :=
  { st0 with
    for_loops := [("I".data,
      { start := .num (.int 1), stop := .num (.int 3), step := .num (.int 1),
        current := .num (.int 1), return_line := some 10 })],
    gosub_stack := [some 20] }

/-- Unfolding of `execute_command` on the literal statement `RETURN`. -/
theorem exec_return_eq (f : Nat) (H : Host) (s : Interp) :
    execute_command (f + 1) H s "RETURN".data =
      match s.gosub_stack.getLast? with
      | none => .ok s
      | some r =>
        .ok { s with program_counter := r, gosub_stack := s.gosub_stack.dropLast } := rfl

/-- C1.  The claim says statement dispatch selects the handler by the first
keyword, with keyword recognition taking priority over assignment
dispatch.  The code's `elif` chain tests `'=' in command` before the IF,
FOR, NEXT, GOTO, ... keywords, so `FOR I=1 TO 3` and `IF A=1 THEN GOTO 50`
are dispatched to the assignment handler; executing `FOR I=1 TO 3` from
the initial state stores the number 0 under the variable name `FOR I` and
installs no FOR frame. -/
theorem claim_C1 :
    dispatchOf (chUpper "FOR I=1 TO 3".data) = Handler.assign ∧
    dispatchOf (chUpper "IF A=1 THEN GOTO 50".data) = Handler.assign ∧
    ∃ sf, execute_command 20 host0 st0 "FOR I=1 TO 3".data = .ok sf ∧
      alookup sf.vars "FOR I".data = some (.num (.int 0)) ∧
      sf.for_loops = [] :=
  ⟨rfl, rfl, _, rfl, rfl, rfl⟩

/-- C2.  The claim says running `10 FOR I=1 TO 3 / 20 PRINT I / 30 NEXT I`
prints `1`, `2`, `3`.  Because the FOR line is dispatched to the
assignment handler (claim C1), the run actually prints `0` once, then
reports `?NEXT WITHOUT FOR ERROR`; the FOR-frame table stays empty (no
frame was ever created) and the junk variable `FOR I` holds 0. -/
theorem claim_C2 :
    ∃ sf, execute_command 40 host0 c2Prog "RUN".data = .ok sf ∧
      sf.output = ["0\n".data, "?NEXT WITHOUT FOR ERROR\n".data, "READY.\n".data] ∧
      sf.for_loops = [] ∧
      alookup sf.vars "FOR I".data = some (.num (.int 0)) ∧
      alookup sf.vars "I".data = none := by
  exact ⟨_, rfl, rfl, rfl, rfl, rfl⟩

/-- C3 counterexample.  The claim says `A$="HI"+" THERE"` stores the string
`HI THERE`.  The evaluator's first branch strips one quote from each end
of any text that begins and ends with `"`, so the statement actually
stores `HI"+" THERE`. -/
theorem claim_C3_cex :
    ∃ sf, execute_command 20 host0 st0 "A$=\"HI\"+\" THERE\"".data = .ok sf ∧
      alookup sf.vars "A$".data = some (.str "HI\"+\" THERE".data) ∧
      alookup sf.vars "A$".data ≠ some (.str "HI THERE".data) := by
  refine ⟨_, rfl, rfl, ?_⟩
  decide

/-- C3 (amended).  `+` is not disambiguated by the runtime kind of its
left operand: an expression text that begins and ends with `"` returns its
interior verbatim, so `A$="HI"+" THERE"` stores `HI"+" THERE`; and
`PRINT 1+"X"` takes the textual concatenation branch (the substituted text
contains both `+` and `"`), printing `1X` with no error. -/
theorem claim_C3 :
    (∃ sf, execute_command 20 host0 st0 "A$=\"HI\"+\" THERE\"".data = .ok sf ∧
      alookup sf.vars "A$".data = some (.str "HI\"+\" THERE".data)) ∧
    (∃ sg, execute_command 20 host0 st0 "PRINT 1+\"X\"".data = .ok sg ∧
      sg.output = ["1X\n".data] ∧
      ∀ chunk ∈ sg.output, chunk.head? ≠ some '?') := by
  refine ⟨⟨_, rfl, rfl⟩, ⟨_, rfl, rfl, ?_⟩⟩
  decide

/-- C4 counterexample.  The claim says `GOTO n` with `n` absent from the
program store fails with a reported `UndefinedLineError`.  Running
`10 GOTO 100 / 20 PRINT "HI"` (no line 100) produces no error message at
all — the only output is the `READY.` prompt — and the run simply stops
with the program counter parked on the absent line. -/
theorem claim_C4_cex :
    ∃ sf, execute_command 40 host0 c4ProgAbsent "RUN".data = .ok sf ∧
      sf.output = ["READY.\n".data] ∧
      (∀ chunk ∈ sf.output, chunk.head? ≠ some '?') ∧
      sf.program_counter = some 100 := by
  refine ⟨_, rfl, rfl, ?_, rfl⟩
  decide

/-- C4 (amended).  `GOTO n` sets the program counter to `n` without any
existence check; when `n` is absent the run loop then exits silently
(only `READY.` is printed, no error is reported), and when `n` is present
execution continues at line `n` (line 20 is skipped and only `B` prints). -/
theorem claim_C4 :
    (∃ sf, execute_command 40 host0 c4ProgAbsent "RUN".data = .ok sf ∧
      sf.output = ["READY.\n".data] ∧ sf.program_counter = some 100) ∧
    (∃ sg, execute_command 40 host0 c4ProgPresent "RUN".data = .ok sg ∧
      sg.output = ["B\n".data, "READY.\n".data]) := by
  exact ⟨⟨_, rfl, rfl, rfl⟩, ⟨_, rfl, rfl⟩⟩

/-- C5 counterexample.  The claim says division by zero is reported as a
`DivisionByZero` failure and is not silently defaulted to 0.  Executing
`PRINT 1/0` prints `0` and reports nothing. -/
theorem claim_C5_cex :
    ∃ sf, execute_command 20 host0 st0 "PRINT 1/0".data = .ok sf ∧
      sf.output = ["0\n".data] ∧
      (∀ chunk ∈ sf.output, chunk.head? ≠ some '?') := by
  refine ⟨_, rfl, rfl, ?_⟩
  decide

/-- C5 (amended).  The host `eval` of `1/0` does raise `ZeroDivisionError`,
but the evaluator's bare `except` swallows it and returns the integer 0,
so the expression `1/0` evaluates to 0 with no reported error. -/
theorem claim_C5 :
    pyEval host0 "1/0".data = .error .zeroDiv ∧
    evaluate_expression host0 20 st0.vars "1/0".data = .ok (.num (.int 0)) := by
  exact ⟨rfl, rfl⟩

/-- C6 counterexample.  The claim says `RETURN` with an empty GOSUB stack
fails with a reported `ReturnWithoutGosub`.  Executing `RETURN` from the
initial state (empty stack) is a silent no-op: the state — including the
output — is entirely unchanged. -/
theorem claim_C6_cex :
    execute_command 20 host0 st0 "RETURN".data = .ok st0 ∧ st0.output = [] := ⟨rfl, rfl⟩

/-- C6 (amended).  `RETURN` with an empty GOSUB stack is a silent no-op
(no error is reported); with a non-empty stack it pops the most recently
pushed return line and sets the program counter to it. -/
theorem claim_C6 (f : Nat) (H : Host) (s : Interp) :
    (s.gosub_stack = [] → execute_command (f + 1) H s "RETURN".data = .ok s) ∧
    (∀ st r, s.gosub_stack = st ++ [r] →
      execute_command (f + 1) H s "RETURN".data =
        .ok { s with program_counter := r, gosub_stack := st }) := by
  constructor
  · intro h
    rw [exec_return_eq, h]
    rfl
  · intro st r h
    rw [exec_return_eq, h, List.getLast?_concat, List.dropLast_concat]

/-- Witness for C6: popping the single frame `some 20` resumes at line 20
with an empty stack. -/
theorem claim_C6_witness :
    execute_command 1 host0 { st0 with gosub_stack := [some 20] } "RETURN".data =
      .ok { st0 with program_counter := some 20, gosub_stack := [] } :=
  (claim_C6 0 host0 { st0 with gosub_stack := [some 20] }).2 [] (some 20) rfl

/-- A program with nested GOSUB calls: 10 GOSUB 100 / 20 PRINT "A" /
30 END / 100 GOSUB 200 / 110 RETURN / 200 RETURN. -/
def c7Prog : Interp :=
  mkProg [(10, "GOSUB 100"), (20, "PRINT \"A\""), (30, "END"),
          (100, "GOSUB 200"), (110, "RETURN"), (200, "RETURN")]

/-- The run-loop state of `c7Prog` about to execute line 10. -/
def c7AtLoop : Interp := { c7Prog with running := true, program_counter := some 10 }

/-- The state in which line 10's `GOSUB 100` executes: the run loop has
already advanced the program counter to the following line, 20. -/
def c7AtGosub : Interp := { c7Prog with running := true, program_counter := some 20 }

/-- The state in which line 200's `RETURN` executes, at stack depth 2:
below the top frame `some 110` sits the outer frame `some 20`. -/
def c7AtReturn : Interp :=
  { c7Prog with
    running := true
    program_counter := none
    gosub_stack := [some 20, some 110] }

/-- C7.  GOSUB/RETURN round-trip.  First, a run-loop step computes the
line after the current one (`nextAfter`) and installs it as the program
counter before the statement executes.  Second, `GOSUB tgt` executed in
state `s₂` pushes exactly that pending program counter onto the GOSUB
stack and jumps to the target.  Third, for any state whose GOSUB stack is
`st ++ [r]` — `st` arbitrary, so at any nesting depth — `RETURN` pops `r`
and resumes there.  Together: a matching RETURN resumes at the line
immediately after the line containing the GOSUB. -/
theorem claim_C7 (f : Nat) (H : Host) (s₁ s₂ t : Interp) (p : Int) (c tgt : Chars)
    (n : Int) (st : List (Option Int)) (r : Option Int)
    (h_run : s₁.running = true) (h_pc : s₁.program_counter = some p)
    (h_line : ilookup s₁.lines p = some c)
    (h_strip : chStrip ("GOSUB ".data ++ tgt) = "GOSUB ".data ++ tgt)
    (h_disp : dispatchOf (chUpper ("GOSUB ".data ++ tgt)) = Handler.gosub)
    (h_eval : evaluate_expression H f s₂.vars (chStrip (' ' :: tgt)) =
      .ok (.num (.int n)))
    (h_ret : t.gosub_stack = st ++ [r]) :
    (runLoopAux (f + 1) H s₁ =
      match execute_command f H
          { s₁ with program_counter := nextAfter (sortKeys s₁.lines) p } c with
      | .error e => .error e
      | .ok s' => if s'.program_counter = none then .ok s' else runLoopAux f H s') ∧
    execute_command (f + 1) H s₂ ("GOSUB ".data ++ tgt) =
      .ok { s₂ with gosub_stack := s₂.gosub_stack ++ [s₂.program_counter],
                    program_counter := some n } ∧
    execute_command (f + 1) H t "RETURN".data =
      .ok { t with program_counter := r, gosub_stack := st } := by
  refine ⟨?_, ?_, ?_⟩
  · simp only [runLoopAux, h_run, h_pc, h_line]
    rfl
  · have hne : chUpper ("GOSUB ".data ++ tgt) ≠ [] := by simp [chUpper]
    simp only [execute_command, h_strip, h_disp, if_neg hne]
    have hdrop : ("GOSUB ".data ++ tgt).drop 5 = ' ' :: tgt := rfl
    rw [hdrop, h_eval]
    rfl
  · rw [exec_return_eq, h_ret, List.getLast?_concat, List.dropLast_concat]

/-- Witness for C7 on the nested program `c7Prog`: executing line 10's
`GOSUB 100` (pending counter 20) pushes `some 20` and jumps to 100, and
the matching `RETURN` at stack depth 2 pops `some 110`, resuming
immediately after the inner GOSUB line. -/
theorem claim_C7_witness :
    execute_command 21 host0 c7AtGosub "GOSUB 100".data =
      .ok { c7AtGosub with gosub_stack := [some 20], program_counter := some 100 } ∧
    execute_command 21 host0 c7AtReturn "RETURN".data =
      .ok { c7AtReturn with program_counter := some 110, gosub_stack := [some 20] } :=
  ⟨(claim_C7 20 host0 c7AtLoop c7AtGosub c7AtReturn 10 "GOSUB 100".data
      "100".data 100 [some 20] (some 110) rfl rfl rfl rfl rfl rfl rfl).2.1,
   (claim_C7 20 host0 c7AtLoop c7AtGosub c7AtReturn 10 "GOSUB 100".data
      "100".data 100 [some 20] (some 110) rfl rfl rfl rfl rfl rfl rfl).2.2⟩

/-- C8 counterexample.  The claim says NEW resets the whole interpreter
state so that no FOR frame or GOSUB return address survives.  Executing
`NEW` on a state holding a live FOR frame for `I` and a pushed return
address leaves both intact. -/
theorem claim_C8_cex :
    ∃ sf, execute_command 20 host0 c8State "NEW".data = .ok sf ∧
      sf.for_loops ≠ [] ∧ sf.gosub_stack ≠ [] := by
  refine ⟨_, rfl, ?_, ?_⟩ <;> decide

/-- C8 (amended).  `NEW` empties the program store and the variable
environment, resets the program counter to 0 and prints `READY.`, but
leaves the FOR-frame table and the GOSUB return stack untouched. -/
theorem claim_C8 (f : Nat) (H : Host) (s : Interp) :
    execute_command (f + 1) H s "NEW".data =
      .ok (emit { s with lines := [], vars := [], program_counter := some 0 }
            "READY.\n".data) ∧
    (emit { s with lines := [], vars := [], program_counter := some 0 }
      "READY.\n".data).for_loops = s.for_loops ∧
    (emit { s with lines := [], vars := [], program_counter := some 0 }
      "READY.\n".data).gosub_stack = s.gosub_stack := ⟨rfl, rfl, rfl⟩

/-- C9 counterexample.  The claim says evaluation is unchanged by adding a
binding for a variable whose name does not occur as an identifier token of
the expression.  With `AB` bound to 2, `AB+1` evaluates to 3; after also
binding `A` (which is not an identifier token of `AB+1` — the only token
is `AB`) to 5, textual substitution rewrites the expression to `5B+1`,
which the host rejects, and the bare `except` turns the result into 0. -/
theorem claim_C9_cex :
    evaluate_expression host0 20 (st0.vars ++ [("AB".data, .num (.int 2))])
        "AB+1".data = .ok (.num (.int 3)) ∧
    evaluate_expression host0 20
        (st0.vars ++ [("A".data, .num (.int 5)), ("AB".data, .num (.int 2))])
        "AB+1".data = .ok (.num (.int 0)) ∧
    identTokens "AB+1".data = ["AB".data] ∧
    "A".data ∉ identTokens "AB+1".data := by
  refine ⟨rfl, rfl, rfl, ?_⟩
  decide

/-- C9 (amended).  Variable references are resolved by textual
substitution over the whole expression in environment insertion order, not
by token identity: through the public interface, `AB = 2` followed by
`PRINT AB+1` prints `3`, while `A = 5` then `AB = 2` then `PRINT AB+1`
prints `0`, although `A` does not occur as an identifier token of `AB+1` —
substituting `A` first produces the malformed text `5B+1`, defaulted to 0. -/
theorem claim_C9 :
    (∃ s1 s2, execute_command 20 host0 st0 "AB = 2".data = .ok s1 ∧
      execute_command 20 host0 s1 "PRINT AB+1".data = .ok s2 ∧
      s2.output = ["3\n".data]) ∧
    (∃ t1 t2 t3, execute_command 20 host0 st0 "A = 5".data = .ok t1 ∧
      execute_command 20 host0 t1 "AB = 2".data = .ok t2 ∧
      execute_command 20 host0 t2 "PRINT AB+1".data = .ok t3 ∧
      t3.output = ["0\n".data]) ∧
    "A".data ∉ identTokens "AB+1".data := by
  refine ⟨⟨_, _, rfl, rfl, rfl⟩, ⟨_, _, _, rfl, rfl, rfl, rfl⟩, ?_⟩
  decide

/-- C10.  Expression evaluation is not total at the public interface: an
empty (or all-whitespace) expression text strips to the empty string, the
`isalpha()` guard is false, and the subscript `expr[0]` of the identifier
test raises a host `IndexError` before any recoverable path is reached; an
assignment with an empty right-hand side, `A =`, therefore aborts with the
uncaught `IndexError` (state unchanged at raise time) rather than a
reported BASIC error. -/
theorem claim_C10 (f : Nat) (H : Host) (vars : VarEnv) (s : Interp) :
    evaluate_expression H (f + 1) vars [] = .error .indexErr ∧
    evaluate_expression H (f + 1) vars [' '] = .error .indexErr ∧
    execute_command (f + 2) H s "A =".data = .error (.py .indexErr s) :=
  ⟨rfl, rfl, rfl⟩

end C64
